import Mathlib

set_option autoImplicit false

/-!
Shallow embedding of the Admin-EY vendor-tracing API (src/main.py).

The persistence layer is MongoDB; we model each collection as a list of
documents in insertion order.  `find_one` returns the first document
matching the filter (`List.find?`), `insert_one` appends, `find` with a
filter is `List.filter`, and the positional `$inc` update of
`report_failure` updates the first document matching the whole filter and,
inside it, the first array element matching the `part_sku` sub-filter
(the MongoDB positional operator).  Python `int` is modelled as `Int`,
Python `float` as `Rat`; `round(x, 2)` is modelled as rounding to a
multiple of 1/100.
-/

namespace AdminEY

/-- Pydantic model `Booking` (src/main.py lines 40-51). -/
structure Booking where
  booking_id : String
  vehicle_id : String
  issue : String
  part_required : Option String := none
  date : String
  status : String := "SCHEDULED"
  replaced_part_sku : Option String := none
  failure_type : Option String := some "NORMAL_WEAR"
  source_batch_id : Option String := none
  deriving DecidableEq, Repr

/-- Pydantic model `ServiceCenter` (src/main.py lines 53-61). -/
structure ServiceCenter where
  centerId : String
  name : String
  location : String
  phone : String
  capacity : Int
  specializations : List String := []
  bookings : List Booking := []
  is_active : Bool := true
  deriving DecidableEq, Repr

/-- Pydantic model `Vendor` (src/main.py lines 65-71); `durability_score`
defaults to 100.0 when the caller omits it. -/
structure Vendor where
  vendor_id : String
  name : String
  category : String
  contact : String
  durability_score : Rat := 100
  deriving DecidableEq, Repr

/-- Pydantic model `BatchPart` (src/main.py lines 73-77). -/
structure BatchPart where
  part_sku : String
  part_name : String
  quantity : Int
  failures_logged : Int := 0
  deriving DecidableEq, Repr

/-- Pydantic model `BatchAllocation` (src/main.py lines 79-84);
`vendor_details` and `batch_info` are free-form dicts, modelled as
association lists (string keys to string values; only
`vendor_details.vendor_id` is ever read). -/
structure BatchAllocation where
  batch_allocation_id : String
  company_name : String
  vendor_details : List (String × String)
  batch_info : List (String × String)
  parts_manifest : List BatchPart
  deriving DecidableEq, Repr

/-- A FastAPI `HTTPException` carrying a status code and a detail string. -/
structure HTTPException where
  status_code : Nat
  detail : String
  deriving DecidableEq, Repr

/-- The three MongoDB collections used by the app (src/main.py lines 33-35),
each as a list of documents in insertion order. -/
structure DB where
  service_centers : List ServiceCenter
  vendors : List Vendor
  batches : List BatchAllocation
  deriving DecidableEq, Repr

/-- The empty database. -/
def DB.empty : DB := ⟨[], [], []⟩

/-! Endpoint POST /register-center (src/main.py lines 102-109). -/

/-- Handler `register_center`: rejects a duplicate `centerId` with 400, otherwise
inserts the document. -/
def register_center (db : DB) (center : ServiceCenter) :
    Except HTTPException (DB × String) :=
  match db.service_centers.find? (fun c => c.centerId == center.centerId) with
  | some _ => .error ⟨400, "Center ID already exists"⟩
  | none =>
      .ok ({ db with service_centers := db.service_centers ++ [center] },
           "Registered Successfully")

/-! Endpoint POST /register-vendor (src/main.py lines 136-143). -/

/-- Handler `register_vendor`: rejects a duplicate `vendor_id` with 400, otherwise
inserts the document. -/
def register_vendor (db : DB) (vendor : Vendor) :
    Except HTTPException (DB × String) :=
  match db.vendors.find? (fun v => v.vendor_id == vendor.vendor_id) with
  | some _ => .error ⟨400, "Vendor ID already exists"⟩
  | none =>
      .ok ({ db with vendors := db.vendors ++ [vendor] }, "Vendor Registered")

/-! Endpoint POST /add-batch (src/main.py lines 146-155). -/

/-- Handler `add_batch`: rejects a duplicate `batch_allocation_id` with 400,
otherwise inserts the document. -/
def add_batch (db : DB) (batch : BatchAllocation) :
    Except HTTPException (DB × String) :=
  match db.batches.find?
      (fun b => b.batch_allocation_id == batch.batch_allocation_id) with
  | some _ => .error ⟨400, "Batch ID already exists"⟩
  | none =>
      .ok ({ db with batches := db.batches ++ [batch] },
           "Batch Logged Successfully")

/-! Endpoint POST /report-failure (src/main.py lines 159-181). -/

/-- Increment `failures_logged` of one manifest entry. -/
def bumpFailures (p : BatchPart) : BatchPart :=
  { p with failures_logged := p.failures_logged + 1 }

/-- MongoDB positional update inside one document: increment
`failures_logged` of the first manifest entry whose `part_sku` matches;
identity when no entry matches. -/
def incFirst (sku : String) : List BatchPart → List BatchPart
  | [] => []
  | p :: rest =>
      if p.part_sku == sku then bumpFailures p :: rest
      else p :: incFirst sku rest

/-- The `update_one` filter of `report_failure`:
`{"batch_allocation_id": batchId, "parts_manifest.part_sku": partSku}`.
A document matches when its id matches and some manifest entry carries the
SKU. -/
def matchesFailureFilter (batchId partSku : String) (b : BatchAllocation) :
    Bool :=
  b.batch_allocation_id == batchId &&
    b.parts_manifest.any (fun p => p.part_sku == partSku)

/-- MongoDB `update_one` with the failure filter and
`{"$inc": {"parts_manifest.$.failures_logged": 1}}`: updates the first
document matching the whole filter and reports `modified_count`. -/
def update_one_inc (batchId partSku : String) :
    List BatchAllocation → List BatchAllocation × Nat
  | [] => ([], 0)
  | b :: rest =>
      if matchesFailureFilter batchId partSku b then
        ({ b with parts_manifest := incFirst partSku b.parts_manifest } :: rest,
         1)
      else
        let r := update_one_inc batchId partSku rest
        (b :: r.1, r.2)

/-- Handler `report_failure`: 404 when no batch has the id; otherwise runs the
positional `$inc` update and answers 400 when `modified_count` is zero
(SKU absent from the manifest). -/
def report_failure (db : DB) (batch_id part_sku : String) :
    Except HTTPException (DB × String) :=
  match db.batches.find? (fun b => b.batch_allocation_id == batch_id) with
  | none => .error ⟨404, "Batch not found"⟩
  | some _ =>
      let r := update_one_inc batch_id part_sku db.batches
      if r.2 == 0 then .error ⟨400, "Part SKU not found in this batch"⟩
      else .ok ({ db with batches := r.1 },
                "Failure Logged. Vendor Durability Score Impacted.")

/-! Endpoint GET /vendor-analytics (src/main.py lines 184-216). -/

/-- The response record of `get_vendor_analytics`. -/
structure VendorAnalytics where
  vendor_name : String
  calculated_durability_score : Rat
  total_parts_supplied : Int
  total_failures_detected : Int
  batches_analyzed : Nat
  deriving DecidableEq, Repr

/-- Python `round(x, 2)`: round to a multiple of 1/100 (ties are immaterial
to every statement below). -/
def round2 (q : Rat) : Rat := (round (q * 100) : Int) / 100

/-- The batches the analytics scan retrieves:
`find({"vendor_details.vendor_id": vendor_id})`. -/
def vendorBatches (db : DB) (vendor_id : String) : List BatchAllocation :=
  db.batches.filter
    (fun b => b.vendor_details.lookup "vendor_id" == some vendor_id)

/-- Sum of `quantity` over a manifest. -/
def manifestQuantity (ps : List BatchPart) : Int :=
  (ps.map (fun p => p.quantity)).sum

/-- Sum of `failures_logged` over a manifest. -/
def manifestFailures (ps : List BatchPart) : Int :=
  (ps.map (fun p => p.failures_logged)).sum

/-- Handler `get_vendor_analytics`: 404 when the vendor is absent; otherwise scans
the batches of the vendor, accumulates quantities and failures, and computes the
durability score (100.0 unless `total_parts_supplied > 0`, in which case
the survival-rate formula applies), rounded to 2 decimal places. -/
def get_vendor_analytics (db : DB) (vendor_id : String) :
    Except HTTPException VendorAnalytics :=
  match db.vendors.find? (fun v => v.vendor_id == vendor_id) with
  | none => .error ⟨404, "Vendor not found"⟩
  | some vendor =>
      let batches := vendorBatches db vendor_id
      let total_parts_supplied : Int :=
        (batches.map (fun b => manifestQuantity b.parts_manifest)).sum
      let total_failures : Int :=
        (batches.map (fun b => manifestFailures b.parts_manifest)).sum
      let score : Rat :=
        if total_parts_supplied > 0 then
          (((total_parts_supplied : Rat) - (total_failures : Rat)) /
              (total_parts_supplied : Rat)) * 100
        else 100
      .ok { vendor_name := vendor.name
            calculated_durability_score := round2 score
            total_parts_supplied := total_parts_supplied
            total_failures_detected := total_failures
            batches_analyzed := batches.length }

/-! The system operations as state transitions.

Each HTTP endpoint of src/main.py, viewed as a transition on the stored
collections.  GET handlers (`home`, `get_all_centers`, `get_center_details`,
`get_center_by_name`, `get_vendor_analytics`) issue only `find`/`find_one`
queries, so their transition is the identity.  `report_failure` runs its
`update_one` whenever the initial batch lookup succeeds, even on the path
that then answers 400. -/

inductive Op where
  | home
  | registerCenter (center : ServiceCenter)
  | getAllCenters
  | getCenterDetails (centerId : String)
  | getCenterByName (name : String)
  | registerVendor (vendor : Vendor)
  | addBatch (batch : BatchAllocation)
  | reportFailure (batchId partSku : String)
  | getVendorAnalytics (vendorId : String)
  deriving DecidableEq, Repr

/-- The state transition of one endpoint invocation (errors leave the state
as the handler left it). -/
def applyEndpoint (db : DB) : Op → DB
  | .home => db
  | .registerCenter c =>
      match register_center db c with
      | .ok r => r.1
      | .error _ => db
  | .getAllCenters => db
  | .getCenterDetails _ => db
  | .getCenterByName _ => db
  | .registerVendor v =>
      match register_vendor db v with
      | .ok r => r.1
      | .error _ => db
  | .addBatch b =>
      match add_batch db b with
      | .ok r => r.1
      | .error _ => db
  | .reportFailure bid sku =>
      match db.batches.find? (fun b => b.batch_allocation_id == bid) with
      | none => db
      | some _ => { db with batches := (update_one_inc bid sku db.batches).1 }
  | .getVendorAnalytics _ => db

/-! List helpers. -/

/-- The function `find?` returns the head of the first segment satisfying the predicate. -/
theorem find?_first {α : Type} (pr : α → Bool) (l1 l2 : List α) (b : α)
    (h1 : ∀ a ∈ l1, pr a = false) (hb : pr b = true) :
    (l1 ++ b :: l2).find? pr = some b := by
  induction l1 with
  | nil => exact List.find?_cons_of_pos _ hb
  | cons a l ih =>
      have ha : pr a = false := h1 a (by simp)
      rw [List.cons_append, List.find?_cons_of_neg _ (by simp [ha])]
      exact ih fun x hx => h1 x (by simp [hx])

/-- The update `incFirst` bumps exactly the first matching entry. -/
theorem incFirst_decomp (sku : String) (m1 : List BatchPart) (p : BatchPart)
    (m2 : List BatchPart) (h1 : ∀ q ∈ m1, q.part_sku ≠ sku)
    (hp : p.part_sku = sku) :
    incFirst sku (m1 ++ p :: m2) = m1 ++ bumpFailures p :: m2 := by
  induction m1 with
  | nil => simp [incFirst, hp]
  | cons q m ih =>
      have hq : q.part_sku ≠ sku := h1 q (by simp)
      have ih2 := ih fun x hx => h1 x (by simp [hx])
      simp [incFirst, hq, ih2]

/-- The update `incFirst` is the identity when no entry matches. -/
theorem incFirst_no_match (sku : String) (ps : List BatchPart)
    (h : ∀ q ∈ ps, q.part_sku ≠ sku) : incFirst sku ps = ps := by
  induction ps with
  | nil => rfl
  | cons q m ih =>
      have hq : q.part_sku ≠ sku := h q (by simp)
      have ih2 := ih fun x hx => h x (by simp [hx])
      simp [incFirst, hq, ih2]

/-- The update `update_one_inc` updates exactly the first document matching the filter. -/
theorem update_one_inc_decomp (bid sku : String) (l1 : List BatchAllocation)
    (b : BatchAllocation) (l2 : List BatchAllocation)
    (h1 : ∀ c ∈ l1, matchesFailureFilter bid sku c = false)
    (hb : matchesFailureFilter bid sku b = true) :
    update_one_inc bid sku (l1 ++ b :: l2) =
      (l1 ++ { b with parts_manifest := incFirst sku b.parts_manifest } :: l2,
       1) := by
  induction l1 with
  | nil => simp [update_one_inc, hb]
  | cons c l ih =>
      have hc : matchesFailureFilter bid sku c = false := h1 c (by simp)
      have ih2 := ih fun x hx => h1 x (by simp [hx])
      simp [update_one_inc, hc, ih2]

/-- The update `update_one_inc` is the identity (with `modified_count = 0`) when no
document matches the filter. -/
theorem update_one_inc_no_match (bid sku : String) (l : List BatchAllocation)
    (h : ∀ c ∈ l, matchesFailureFilter bid sku c = false) :
    update_one_inc bid sku l = (l, 0) := by
  induction l with
  | nil => rfl
  | cons c l ih =>
      have hc : matchesFailureFilter bid sku c = false := h c (by simp)
      have ih2 := ih fun x hx => h x (by simp [hx])
      simp [update_one_inc, hc, ih2]

/-- When `update_one_inc` reports `modified_count = 0` it changed nothing. -/
theorem update_one_inc_snd_zero (bid sku : String) (l : List BatchAllocation)
    (h : (update_one_inc bid sku l).2 = 0) :
    (update_one_inc bid sku l).1 = l := by
  induction l with
  | nil => rfl
  | cons c l ih =>
      by_cases hc : matchesFailureFilter bid sku c = true
      · simp [update_one_inc, hc] at h
      · simp only [update_one_inc, hc, if_neg, Bool.not_eq_true] at h ⊢
        rw [ih h]

/-- The exact effect of a successful `report_failure`, given the position of
the batch and of the first matching manifest entry. -/
theorem report_failure_eq_of_decomp (db : DB) (bid sku : String)
    (l1 : List BatchAllocation) (b : BatchAllocation)
    (l2 : List BatchAllocation) (m1 : List BatchPart) (p : BatchPart)
    (m2 : List BatchPart)
    (hbatches : db.batches = l1 ++ b :: l2)
    (hl1 : ∀ c ∈ l1, c.batch_allocation_id ≠ bid)
    (hbid : b.batch_allocation_id = bid)
    (hman : b.parts_manifest = m1 ++ p :: m2)
    (hm1 : ∀ q ∈ m1, q.part_sku ≠ sku)
    (hp : p.part_sku = sku) :
    report_failure db bid sku =
      .ok ({ db with batches :=
              l1 ++ { b with parts_manifest := m1 ++ bumpFailures p :: m2 } :: l2 },
           "Failure Logged. Vendor Durability Score Impacted.") := by
  have hfind : db.batches.find? (fun c => c.batch_allocation_id == bid) =
      some b := by
    rw [hbatches]
    exact find?_first _ _ _ _ (fun a ha => by simp [hl1 a ha]) (by simp [hbid])
  have hfilter1 : ∀ c ∈ l1, matchesFailureFilter bid sku c = false := by
    intro c hc
    simp [matchesFailureFilter, hl1 c hc]
  have hfilterb : matchesFailureFilter bid sku b = true := by
    simp only [matchesFailureFilter, hbid, beq_self_eq_true, Bool.true_and,
      List.any_eq_true]
    exact ⟨p, by simp [hman], by simp [hp]⟩
  have hupd := update_one_inc_decomp bid sku l1 b l2 hfilter1 hfilterb
  have hinc : incFirst sku b.parts_manifest = m1 ++ bumpFailures p :: m2 := by
    rw [hman]; exact incFirst_decomp sku m1 p m2 hm1 hp
  rw [report_failure, hfind]
  simp only [hbatches, hupd, hinc]
  rfl

/-! Concurrency model.

`report_failure` awaits two storage operations: a `find_one` on the batch
id, then the atomic positional `$inc` update.  Concurrent callers interleave
at the granularity of these storage operations (each MongoDB single-document
operation is atomic), so an interleaved execution is an arbitrary sequence
of atomic operations.  `runSchedule` executes such a sequence and also
accumulates the `modified_count` values reported by the updates. -/

inductive AtomicOp where
  | findBatch (batchId : String)
  | updateInc (batchId partSku : String)
  deriving DecidableEq, Repr

/-- One atomic storage operation: a read leaves the state unchanged and
modifies nothing; an update runs the positional `$inc` and reports its
`modified_count`. -/
def applyAtomic (db : DB) : AtomicOp → DB × Nat
  | .findBatch _ => (db, 0)
  | .updateInc bid sku =>
      let r := update_one_inc bid sku db.batches
      ({ db with batches := r.1 }, r.2)

/-- Run a sequence of atomic storage operations, summing `modified_count`. -/
def runSchedule (db : DB) : List AtomicOp → DB × Nat
  | [] => (db, 0)
  | o :: ops =>
      let r := applyAtomic db o
      let s := runSchedule r.1 ops
      (s.1, r.2 + s.2)

/-- The manifest entry a `(batchId, partSku)` pair addresses: the first
matching entry of the first batch with the id. -/
def lookupEntry (db : DB) (batchId partSku : String) : Option BatchPart :=
  match db.batches.find? (fun b => b.batch_allocation_id == batchId) with
  | none => none
  | some b => b.parts_manifest.find? (fun p => p.part_sku == partSku)

/-- One atomic `$inc` bumps the addressed entry by one and reports
`modified_count = 1`. -/
theorem applyAtomic_updateInc (db : DB) (bid sku : String) (p : BatchPart)
    (h : lookupEntry db bid sku = some p) :
    lookupEntry (applyAtomic db (.updateInc bid sku)).1 bid sku =
      some (bumpFailures p) ∧
    (applyAtomic db (.updateInc bid sku)).2 = 1 := by
  rw [lookupEntry] at h
  rcases hfind : db.batches.find? (fun b => b.batch_allocation_id == bid) with
    _ | b
  · rw [hfind] at h; exact absurd h (by simp)
  rw [hfind] at h
  obtain ⟨hbid, l1, l2, hbatches, hl1⟩ := List.find?_eq_some.1 hfind
  obtain ⟨hsku, m1, m2, hman, hm1⟩ := List.find?_eq_some.1 h
  have hl1' : ∀ c ∈ l1, c.batch_allocation_id ≠ bid := by
    intro c hc; have := hl1 c hc; simpa using this
  have hm1' : ∀ q ∈ m1, q.part_sku ≠ sku := by
    intro q hq; have := hm1 q hq; simpa using this
  have hfilter1 : ∀ c ∈ l1, matchesFailureFilter bid sku c = false := by
    intro c hc; simp [matchesFailureFilter, hl1' c hc]
  have hfilterb : matchesFailureFilter bid sku b = true := by
    simp only [matchesFailureFilter, hbid, Bool.true_and, List.any_eq_true]
    exact ⟨p, by simp [hman], hsku⟩
  have hupd := update_one_inc_decomp bid sku l1 b l2 hfilter1 hfilterb
  have hinc : incFirst sku b.parts_manifest = m1 ++ bumpFailures p :: m2 := by
    rw [hman]
    exact incFirst_decomp sku m1 p m2 hm1' (by simpa using hsku)
  constructor
  · rw [lookupEntry]
    simp only [applyAtomic, hbatches, hupd, hinc]
    rw [find?_first _ l1 l2 _ (fun c hc => by simp [hl1' c hc]) (by simpa using hbid)]
    exact find?_first _ m1 m2 _ (fun q hq => by simp [hm1' q hq])
      (by simpa using hsku)
  · simp only [applyAtomic, hbatches, hupd]

/-! Elementwise frame lemmas. -/

/-- The update `incFirst` leaves every position alone or bumps it. -/
theorem incFirst_getElem? (sku : String) (ps : List BatchPart) (k : Nat) :
    (incFirst sku ps)[k]? = ps[k]? ∨
      ∃ q, ps[k]? = some q ∧ (incFirst sku ps)[k]? = some (bumpFailures q) := by
  induction ps generalizing k with
  | nil => left; rfl
  | cons q m ih =>
      by_cases hq : q.part_sku == sku
      · simp only [incFirst, hq, if_pos]
        cases k with
        | zero => right; exact ⟨q, by simp, by simp⟩
        | succ k => left; simp
      · simp only [incFirst, hq, Bool.false_eq_true, if_neg]
        cases k with
        | zero => left; simp
        | succ k =>
            rcases ih k with h | ⟨x, hx1, hx2⟩
            · left; simpa using h
            · right; exact ⟨x, by simpa using hx1, by simpa using hx2⟩

/-- The update `update_one_inc` leaves every position alone or applies `incFirst` to
its manifest. -/
theorem update_one_inc_getElem? (bid sku : String)
    (l : List BatchAllocation) (j : Nat) :
    (update_one_inc bid sku l).1[j]? = l[j]? ∨
      ∃ c, l[j]? = some c ∧
        (update_one_inc bid sku l).1[j]? =
          some { c with parts_manifest := incFirst sku c.parts_manifest } := by
  induction l generalizing j with
  | nil => left; rfl
  | cons c m ih =>
      by_cases hc : matchesFailureFilter bid sku c = true
      · simp only [update_one_inc, hc, if_pos]
        cases j with
        | zero => right; exact ⟨c, by simp, by simp⟩
        | succ j => left; simp
      · simp only [update_one_inc, hc, if_neg]
        cases j with
        | zero => left; simp
        | succ j =>
            rcases ih j with h | ⟨x, hx1, hx2⟩
            · left; simpa using h
            · right; exact ⟨x, by simpa using hx1, by simpa using hx2⟩

/-- In a list of pairwise-distinct keys, exactly one element carries the
key of a member. -/
theorem countP_key_eq_one {α : Type} {β : Type} [DecidableEq β] (f : α → β)
    (l : List α) (x : α) (hnd : (l.map f).Nodup) (hx : x ∈ l) :
    l.countP (fun a => f a == f x) = 1 := by
  induction l with
  | nil => cases hx
  | cons a m ih =>
      rw [List.map_cons, List.nodup_cons] at hnd
      rcases List.mem_cons.1 hx with rfl | hx'
      · have hzero : m.countP (fun b => f b == f x) = 0 := by
          rw [List.countP_eq_zero]
          intro b hb
          simp only [beq_iff_eq]
          intro hfb
          exact hnd.1 (hfb ▸ List.mem_map_of_mem f hb)
        simp [List.countP_cons, hzero]
      · have hne : f a ≠ f x := by
          intro hfa
          exact hnd.1 (hfa ▸ List.mem_map_of_mem f hx')
        simp [List.countP_cons, hne, ih hnd.2 hx']

/-! Concrete sample data. -/

def densoVendor : Vendor :=
  { vendor_id := "V-DENSO-09", name := "Denso Corporation",
    category := "Electronics", contact := "supply@denso.example" }

def sparkPlugPart : BatchPart :=
  { part_sku := "90919-01191", part_name := "Spark Plug", quantity := 100 }

def toyotaBatch : BatchAllocation :=
  { batch_allocation_id := "TOYOTA_202403A001", company_name := "Toyota",
    vendor_details := [("vendor_id", "V-DENSO-09")], batch_info := [],
    parts_manifest := [sparkPlugPart] }

/-- State after registering the vendor. -/
def scenarioDB1 : DB :=
  { service_centers := [], vendors := [densoVendor], batches := [] }

/-- State after also logging the batch. -/
def scenarioDB2 : DB := { scenarioDB1 with batches := [toyotaBatch] }

/-- State after `n` failure reports against the spark-plug entry. -/
def scenarioDBAfter (n : Int) : DB :=
  { scenarioDB1 with
    batches := [{ toyotaBatch with
                  parts_manifest := [{ sparkPlugPart with failures_logged := n }] }] }

/-! Claims. -/

/-- C2: starting from the empty store, registering `V-DENSO-09`, logging
batch `TOYOTA_202403A001` with a 100-unit spark-plug manifest, and
reporting three failures against that SKU yields analytics
`total_parts_supplied = 100`, `total_failures_detected = 3`,
`calculated_durability_score = 97.0`, `batches_analyzed = 1`. -/
theorem claim_C2 :
    register_vendor DB.empty densoVendor = .ok (scenarioDB1, "Vendor Registered") ∧
    add_batch scenarioDB1 toyotaBatch =
      .ok (scenarioDB2, "Batch Logged Successfully") ∧
    report_failure scenarioDB2 "TOYOTA_202403A001" "90919-01191" =
      .ok (scenarioDBAfter 1, "Failure Logged. Vendor Durability Score Impacted.") ∧
    report_failure (scenarioDBAfter 1) "TOYOTA_202403A001" "90919-01191" =
      .ok (scenarioDBAfter 2, "Failure Logged. Vendor Durability Score Impacted.") ∧
    report_failure (scenarioDBAfter 2) "TOYOTA_202403A001" "90919-01191" =
      .ok (scenarioDBAfter 3, "Failure Logged. Vendor Durability Score Impacted.") ∧
    get_vendor_analytics (scenarioDBAfter 3) "V-DENSO-09" =
      .ok { vendor_name := "Denso Corporation",
            calculated_durability_score := 97,
            total_parts_supplied := 100, total_failures_detected := 3,
            batches_analyzed := 1 } := by
  refine ⟨?_, ?_, ?_, ?_, ?_, ?_⟩
  · simp [register_vendor, DB.empty, scenarioDB1]
  · simp [add_batch, scenarioDB1, scenarioDB2]
  · simp [report_failure, scenarioDB2, scenarioDB1, scenarioDBAfter, toyotaBatch,
      sparkPlugPart, update_one_inc, matchesFailureFilter, incFirst, bumpFailures,
      List.find?]
  · simp [report_failure, scenarioDBAfter, scenarioDB1, toyotaBatch, sparkPlugPart,
      update_one_inc, matchesFailureFilter, incFirst, bumpFailures, List.find?]
  · simp [report_failure, scenarioDBAfter, scenarioDB1, toyotaBatch, sparkPlugPart,
      update_one_inc, matchesFailureFilter, incFirst, bumpFailures, List.find?]
  · simp only [get_vendor_analytics, scenarioDBAfter, scenarioDB1, densoVendor,
      toyotaBatch, sparkPlugPart, vendorBatches, manifestQuantity, manifestFailures,
      round2, List.find?, List.filter, List.lookup]
    norm_num [round_eq]

/-- C5: `reportFailure` against a batch id absent from the Batch Ledger
fails with 404 `Batch not found` and leaves the whole store unchanged. -/
theorem claim_C5 (db : DB) (bid sku : String)
    (h : ∀ b ∈ db.batches, b.batch_allocation_id ≠ bid) :
    report_failure db bid sku = .error ⟨404, "Batch not found"⟩ ∧
    applyEndpoint db (.reportFailure bid sku) = db := by
  have hfind : db.batches.find? (fun b => b.batch_allocation_id == bid) =
      none := by
    rw [List.find?_eq_none]
    intro b hb; simp [h b hb]
  exact ⟨by rw [report_failure, hfind], by simp only [applyEndpoint, hfind]⟩

theorem claim_C5_witness :
    report_failure scenarioDB1 "B-MISSING" "S" =
      .error ⟨404, "Batch not found"⟩ ∧
    applyEndpoint scenarioDB1 (.reportFailure "B-MISSING" "S") = scenarioDB1 :=
  claim_C5 scenarioDB1 "B-MISSING" "S" (by simp [scenarioDB1])

/-- C6: `reportFailure` with an existing batch id but a SKU matching no
manifest entry of it fails with 400 `Part SKU not found in this batch` and
leaves the store unchanged. -/
theorem claim_C6 (db : DB) (bid sku : String)
    (hex : ∃ b ∈ db.batches, b.batch_allocation_id = bid)
    (hno : ∀ b ∈ db.batches, b.batch_allocation_id = bid →
        ∀ p ∈ b.parts_manifest, p.part_sku ≠ sku) :
    report_failure db bid sku =
      .error ⟨400, "Part SKU not found in this batch"⟩ ∧
    applyEndpoint db (.reportFailure bid sku) = db := by
  obtain ⟨b0, hb0, hbid0⟩ := hex
  have hsome : (db.batches.find?
      (fun b => b.batch_allocation_id == bid)).isSome := by
    rw [List.find?_isSome]; exact ⟨b0, hb0, by simp [hbid0]⟩
  obtain ⟨b1, hb1⟩ := Option.isSome_iff_exists.1 hsome
  have hfilter : ∀ c ∈ db.batches, matchesFailureFilter bid sku c = false := by
    intro c hc
    by_cases hcid : c.batch_allocation_id = bid
    · simp only [matchesFailureFilter, hcid, beq_self_eq_true, Bool.true_and,
        List.any_eq_false]
      intro p hp; simp [hno c hc hcid p hp]
    · simp [matchesFailureFilter, hcid]
  have hupd := update_one_inc_no_match bid sku db.batches hfilter
  constructor
  · rw [report_failure, hb1]; simp [hupd]
  · simp only [applyEndpoint, hb1, hupd]

theorem claim_C6_witness :
    report_failure scenarioDB2 "TOYOTA_202403A001" "NO-SUCH-SKU" =
      .error ⟨400, "Part SKU not found in this batch"⟩ ∧
    applyEndpoint scenarioDB2 (.reportFailure "TOYOTA_202403A001" "NO-SUCH-SKU") =
      scenarioDB2 :=
  claim_C6 scenarioDB2 "TOYOTA_202403A001" "NO-SUCH-SKU"
    ⟨toyotaBatch, by simp [scenarioDB2, scenarioDB1], by decide⟩
    (by decide)

/-- C8: `computeVendorAnalytics` is a deterministic read: its endpoint
transition leaves the store untouched, and re-running it on the resulting
store returns the identical result. -/
theorem claim_C8 (db : DB) (vid : String) :
    applyEndpoint db (.getVendorAnalytics vid) = db ∧
    get_vendor_analytics (applyEndpoint db (.getVendorAnalytics vid)) vid =
      get_vendor_analytics db vid :=
  ⟨rfl, rfl⟩

/-- C3: a successful `reportFailure` increments `failures_logged` of the
first matching manifest entry by exactly one, changes no other field of
that batch, and leaves every other batch, every vendor, and every service
center untouched. -/
theorem claim_C3 (db : DB) (bid sku : String) (b : BatchAllocation)
    (hfind : db.batches.find? (fun c => c.batch_allocation_id == bid) = some b)
    (hsku : ∃ q ∈ b.parts_manifest, q.part_sku = sku) :
    ∃ db2 l1 l2 m1 p m2,
      report_failure db bid sku =
        .ok (db2, "Failure Logged. Vendor Durability Score Impacted.") ∧
      db2.service_centers = db.service_centers ∧
      db2.vendors = db.vendors ∧
      db.batches = l1 ++ b :: l2 ∧
      db2.batches =
        l1 ++ { b with parts_manifest := m1 ++ bumpFailures p :: m2 } :: l2 ∧
      b.parts_manifest = m1 ++ p :: m2 ∧
      p.part_sku = sku ∧ (∀ q ∈ m1, q.part_sku ≠ sku) ∧
      bumpFailures p = { p with failures_logged := p.failures_logged + 1 } := by
  obtain ⟨hbid, l1, l2, hbatches, hl1⟩ := List.find?_eq_some.1 hfind
  obtain ⟨p0, hp0mem, hp0⟩ := hsku
  have hmsome : (b.parts_manifest.find?
      (fun q => q.part_sku == sku)).isSome := by
    rw [List.find?_isSome]; exact ⟨p0, hp0mem, by simp [hp0]⟩
  obtain ⟨p, hp⟩ := Option.isSome_iff_exists.1 hmsome
  obtain ⟨hpsku, m1, m2, hman, hm1⟩ := List.find?_eq_some.1 hp
  have hl1b : ∀ c ∈ l1, c.batch_allocation_id ≠ bid := by
    intro c hc; simpa using hl1 c hc
  have hm1b : ∀ q ∈ m1, q.part_sku ≠ sku := by
    intro q hq; simpa using hm1 q hq
  have hrun := report_failure_eq_of_decomp db bid sku l1 b l2 m1 p m2 hbatches
    hl1b (by simpa using hbid) hman hm1b (by simpa using hpsku)
  exact ⟨_, l1, l2, m1, p, m2, hrun, rfl, rfl, hbatches, rfl, hman,
    by simpa using hpsku, hm1b, rfl⟩

theorem claim_C3_witness :
    ∃ db2 l1 l2 m1 p m2,
      report_failure scenarioDB2 "TOYOTA_202403A001" "90919-01191" =
        .ok (db2, "Failure Logged. Vendor Durability Score Impacted.") ∧
      db2.service_centers = scenarioDB2.service_centers ∧
      db2.vendors = scenarioDB2.vendors ∧
      scenarioDB2.batches = l1 ++ toyotaBatch :: l2 ∧
      db2.batches =
        l1 ++ { toyotaBatch with
                parts_manifest := m1 ++ bumpFailures p :: m2 } :: l2 ∧
      toyotaBatch.parts_manifest = m1 ++ p :: m2 ∧
      p.part_sku = "90919-01191" ∧ (∀ q ∈ m1, q.part_sku ≠ "90919-01191") ∧
      bumpFailures p = { p with failures_logged := p.failures_logged + 1 } :=
  claim_C3 scenarioDB2 "TOYOTA_202403A001" "90919-01191" toyotaBatch
    (by decide) ⟨sparkPlugPart, by decide, by decide⟩

/-- C10: when a manifest carries duplicate entries for one SKU, a
successful `reportFailure` bumps exactly the first matching entry, in
manifest order, and leaves every later duplicate unchanged. -/
theorem claim_C10 (db : DB) (bid sku : String) (l1 : List BatchAllocation)
    (b : BatchAllocation) (l2 : List BatchAllocation) (m1 : List BatchPart)
    (p : BatchPart) (m2 : List BatchPart)
    (hbatches : db.batches = l1 ++ b :: l2)
    (hl1 : ∀ c ∈ l1, c.batch_allocation_id ≠ bid)
    (hbid : b.batch_allocation_id = bid)
    (hman : b.parts_manifest = m1 ++ p :: m2)
    (hm1 : ∀ q ∈ m1, q.part_sku ≠ sku)
    (hp : p.part_sku = sku)
    (_hdup : ∃ q ∈ m2, q.part_sku = sku) :
    report_failure db bid sku =
      .ok ({ db with batches :=
              l1 ++ { b with parts_manifest := m1 ++ bumpFailures p :: m2 } :: l2 },
           "Failure Logged. Vendor Durability Score Impacted.") :=
  report_failure_eq_of_decomp db bid sku l1 b l2 m1 p m2 hbatches hl1 hbid
    hman hm1 hp

def dupPartA : BatchPart :=
  { part_sku := "DUP-1", part_name := "Gasket A", quantity := 10 }

def dupPartB : BatchPart :=
  { part_sku := "DUP-1", part_name := "Gasket B", quantity := 20,
    failures_logged := 5 }

def dupBatch : BatchAllocation :=
  { batch_allocation_id := "B-DUP", company_name := "Acme",
    vendor_details := [("vendor_id", "V-DENSO-09")], batch_info := [],
    parts_manifest := [dupPartA, dupPartB] }

def dupDB : DB :=
  { service_centers := [], vendors := [densoVendor], batches := [dupBatch] }

theorem claim_C10_witness :
    report_failure dupDB "B-DUP" "DUP-1" =
      .ok ({ dupDB with batches :=
              [{ dupBatch with
                 parts_manifest := [bumpFailures dupPartA, dupPartB] }] },
           "Failure Logged. Vendor Durability Score Impacted.") :=
  claim_C10 dupDB "B-DUP" "DUP-1" [] dupBatch [] [] dupPartA [dupPartB]
    rfl (by simp) rfl rfl (by simp) rfl ⟨dupPartB, by simp, rfl⟩

/-- C7: `registerVendor` fails with 400 `Vendor ID already exists` exactly
when the id is taken; a failing call leaves the registry unchanged with
exactly one record for the id; a successful call appends the vendor as
given; and a vendor built without an explicit score carries the default
snapshot 100.0. -/
theorem claim_C7 (db : DB) (v : Vendor)
    (hnd : (db.vendors.map (fun w => w.vendor_id)).Nodup) :
    ((∃ w ∈ db.vendors, w.vendor_id = v.vendor_id) →
      register_vendor db v = .error ⟨400, "Vendor ID already exists"⟩ ∧
      applyEndpoint db (.registerVendor v) = db ∧
      db.vendors.countP (fun w => w.vendor_id == v.vendor_id) = 1) ∧
    ((∀ w ∈ db.vendors, w.vendor_id ≠ v.vendor_id) →
      register_vendor db v =
        .ok ({ db with vendors := db.vendors ++ [v] }, "Vendor Registered")) ∧
    (∀ i n c t,
      ({ vendor_id := i, name := n, category := c,
         contact := t } : Vendor).durability_score = 100) := by
  refine ⟨?_, ?_, fun i n c t => rfl⟩
  · rintro ⟨w, hw, hwid⟩
    have hsome : (db.vendors.find?
        (fun u => u.vendor_id == v.vendor_id)).isSome := by
      rw [List.find?_isSome]; exact ⟨w, hw, by simp [hwid]⟩
    obtain ⟨w1, hw1⟩ := Option.isSome_iff_exists.1 hsome
    have hcount : db.vendors.countP (fun u => u.vendor_id == v.vendor_id) = 1 := by
      rw [← hwid]
      exact countP_key_eq_one (fun u => u.vendor_id) db.vendors w hnd hw
    exact ⟨by rw [register_vendor, hw1], by simp only [applyEndpoint,
      register_vendor, hw1], hcount⟩
  · intro hno
    have hfind : db.vendors.find? (fun u => u.vendor_id == v.vendor_id) =
        none := by
      rw [List.find?_eq_none]; intro w hw; simp [hno w hw]
    rw [register_vendor, hfind]

theorem claim_C7_witness :
    register_vendor scenarioDB1 densoVendor =
      .error ⟨400, "Vendor ID already exists"⟩ ∧
    applyEndpoint scenarioDB1 (.registerVendor densoVendor) = scenarioDB1 ∧
    scenarioDB1.vendors.countP
      (fun w => w.vendor_id == densoVendor.vendor_id) = 1 :=
  (claim_C7 scenarioDB1 densoVendor (by simp [scenarioDB1])).1
    ⟨densoVendor, by simp [scenarioDB1], rfl⟩

/-- C9: across every endpoint of the system, `failures_logged` of every
manifest entry already stored never decreases, and the only mutation is
the single increment performed by `reportFailure`. -/
theorem claim_C9 (db : DB) (op : Op) (j k : Nat) (b : BatchAllocation)
    (p : BatchPart) (hb : db.batches[j]? = some b)
    (hp : b.parts_manifest[k]? = some p) :
    ∃ b2 p2, (applyEndpoint db op).batches[j]? = some b2 ∧
      b2.parts_manifest[k]? = some p2 ∧
      p.failures_logged ≤ p2.failures_logged ∧
      (p2 = p ∨ ∃ bid sku, op = .reportFailure bid sku ∧ p2 = bumpFailures p) := by
  cases op with
  | home => exact ⟨b, p, hb, hp, le_refl _, Or.inl rfl⟩
  | getAllCenters => exact ⟨b, p, hb, hp, le_refl _, Or.inl rfl⟩
  | getCenterDetails cid => exact ⟨b, p, hb, hp, le_refl _, Or.inl rfl⟩
  | getCenterByName nm => exact ⟨b, p, hb, hp, le_refl _, Or.inl rfl⟩
  | getVendorAnalytics vid => exact ⟨b, p, hb, hp, le_refl _, Or.inl rfl⟩
  | registerCenter c =>
      rcases hf : db.service_centers.find?
          (fun x => x.centerId == c.centerId) with _ | x
      · exact ⟨b, p, by simp only [applyEndpoint, register_center, hf]; exact hb,
          hp, le_refl _, Or.inl rfl⟩
      · exact ⟨b, p, by simp only [applyEndpoint, register_center, hf]; exact hb,
          hp, le_refl _, Or.inl rfl⟩
  | registerVendor v =>
      rcases hf : db.vendors.find?
          (fun x => x.vendor_id == v.vendor_id) with _ | x
      · exact ⟨b, p, by simp only [applyEndpoint, register_vendor, hf]; exact hb,
          hp, le_refl _, Or.inl rfl⟩
      · exact ⟨b, p, by simp only [applyEndpoint, register_vendor, hf]; exact hb,
          hp, le_refl _, Or.inl rfl⟩
  | addBatch nb =>
      rcases hf : db.batches.find?
          (fun x => x.batch_allocation_id == nb.batch_allocation_id) with _ | x
      · refine ⟨b, p, ?_, hp, le_refl _, Or.inl rfl⟩
        simp only [applyEndpoint, add_batch, hf]
        have hj : j < db.batches.length :=
          (List.getElem?_eq_some.1 hb).1
        rw [List.getElem?_append, if_pos hj]
        exact hb
      · exact ⟨b, p, by simp only [applyEndpoint, add_batch, hf]; exact hb,
          hp, le_refl _, Or.inl rfl⟩
  | reportFailure bid sku =>
      rcases hf : db.batches.find?
          (fun x => x.batch_allocation_id == bid) with _ | x
      · exact ⟨b, p, by simp only [applyEndpoint, hf]; exact hb,
          hp, le_refl _, Or.inl rfl⟩
      · have happ : (applyEndpoint db (.reportFailure bid sku)).batches =
            (update_one_inc bid sku db.batches).1 := by
          simp only [applyEndpoint, hf]
        rcases update_one_inc_getElem? bid sku db.batches j with
          hsame | ⟨c, hc1, hc2⟩
        · exact ⟨b, p, by rw [happ, hsame]; exact hb, hp, le_refl _,
            Or.inl rfl⟩
        · have hcb : c = b := by
            rw [hb] at hc1; exact (Option.some_inj.mp hc1).symm
          subst hcb
          rcases incFirst_getElem? sku c.parts_manifest k with
            hks | ⟨q, hq1, hq2⟩
          · exact ⟨_, p, by rw [happ]; exact hc2, by rw [hks]; exact hp,
              le_refl _, Or.inl rfl⟩
          · have hqp : q = p := by
              rw [hp] at hq1; exact (Option.some_inj.mp hq1).symm
            subst hqp
            refine ⟨_, bumpFailures q, by rw [happ]; exact hc2, hq2, ?_, ?_⟩
            · simp [bumpFailures]
            · exact Or.inr ⟨bid, sku, rfl, rfl⟩

theorem claim_C9_witness :
    ∃ b2 p2,
      (applyEndpoint scenarioDB2
          (.reportFailure "TOYOTA_202403A001" "90919-01191")).batches[0]? =
        some b2 ∧
      b2.parts_manifest[0]? = some p2 ∧
      sparkPlugPart.failures_logged ≤ p2.failures_logged ∧
      (p2 = sparkPlugPart ∨ ∃ bid sku,
        Op.reportFailure "TOYOTA_202403A001" "90919-01191" =
          .reportFailure bid sku ∧ p2 = bumpFailures sparkPlugPart) :=
  claim_C9 scenarioDB2 (.reportFailure "TOYOTA_202403A001" "90919-01191")
    0 0 toyotaBatch sparkPlugPart (by decide) (by decide)

/-- A schedule step is allowed in the C4 scenario when it is a read or an
update against the one key under test. -/
def onKeyOnly (bid sku : String) : AtomicOp → Bool
  | .updateInc b s => b == bid && s == sku
  | .findBatch _ => true

/-- C4: under any interleaving of the atomic storage operations of
concurrent `reportFailure` callers against one `(batchId, partSku)` pair
(reads in any order and `n` atomic `$inc` updates), the addressed manifest
entry ends at its initial `failures_logged` plus `n`, and the updates
report `n` modifications in total — each increment is applied exactly
once. -/
theorem claim_C4 (db : DB) (bid sku : String) (p : BatchPart)
    (ops : List AtomicOp)
    (hp : lookupEntry db bid sku = some p)
    (hops : ∀ o ∈ ops, onKeyOnly bid sku o = true) :
    lookupEntry (runSchedule db ops).1 bid sku =
      some { p with failures_logged := p.failures_logged +
              (ops.countP (fun o => decide (o = AtomicOp.updateInc bid sku)) : Int) } ∧
    (runSchedule db ops).2 =
      ops.countP (fun o => decide (o = AtomicOp.updateInc bid sku)) := by
  induction ops generalizing db p with
  | nil =>
      refine ⟨?_, rfl⟩
      simp only [runSchedule]
      rw [hp]
      simp
  | cons o ops ih =>
      have hcons := hops o (by simp)
      cases o with
      | findBatch bid2 =>
          have ihh := ih db p hp (fun x hx => hops x (by simp [hx]))
          have hcount : (AtomicOp.findBatch bid2 :: ops).countP
              (fun o => decide (o = AtomicOp.updateInc bid sku)) =
              ops.countP (fun o => decide (o = AtomicOp.updateInc bid sku)) := by
            simp [List.countP_cons]
          rw [hcount]
          refine ⟨?_, ?_⟩
          · simp only [runSchedule, applyAtomic]
            exact ihh.1
          · simp only [runSchedule, applyAtomic]
            rw [ihh.2]
            omega
      | updateInc bid2 sku2 =>
          have hb2 : bid2 = bid ∧ sku2 = sku := by
            simpa [onKeyOnly] using hcons
          obtain ⟨rfl, rfl⟩ := hb2
          have step := applyAtomic_updateInc db bid2 sku2 p hp
          have ihh := ih (applyAtomic db (.updateInc bid2 sku2)).1
            (bumpFailures p) step.1 (fun x hx => hops x (by simp [hx]))
          have hcount : (AtomicOp.updateInc bid2 sku2 :: ops).countP
              (fun o => decide (o = AtomicOp.updateInc bid2 sku2)) =
              ops.countP (fun o => decide (o = AtomicOp.updateInc bid2 sku2)) + 1 := by
            simp [List.countP_cons]
          rw [hcount]
          refine ⟨?_, ?_⟩
          · simp only [runSchedule]
            rw [ihh.1]
            simp only [bumpFailures, Option.some_inj]
            congr 1
            push_cast
            ring
          · simp only [runSchedule]
            rw [ihh.2, step.2]
            omega

theorem claim_C4_witness :
    lookupEntry
      (runSchedule scenarioDB2
        [AtomicOp.findBatch "TOYOTA_202403A001",
         AtomicOp.findBatch "TOYOTA_202403A001",
         AtomicOp.updateInc "TOYOTA_202403A001" "90919-01191",
         AtomicOp.updateInc "TOYOTA_202403A001" "90919-01191"]).1
      "TOYOTA_202403A001" "90919-01191" =
      some { sparkPlugPart with
             failures_logged := sparkPlugPart.failures_logged + 2 } ∧
    (runSchedule scenarioDB2
        [AtomicOp.findBatch "TOYOTA_202403A001",
         AtomicOp.findBatch "TOYOTA_202403A001",
         AtomicOp.updateInc "TOYOTA_202403A001" "90919-01191",
         AtomicOp.updateInc "TOYOTA_202403A001" "90919-01191"]).2 = 2 :=
  claim_C4 scenarioDB2 "TOYOTA_202403A001" "90919-01191" sparkPlugPart
    [.findBatch "TOYOTA_202403A001", .findBatch "TOYOTA_202403A001",
     .updateInc "TOYOTA_202403A001" "90919-01191",
     .updateInc "TOYOTA_202403A001" "90919-01191"]
    (by decide) (by decide)

/-! Claim C1. -/

/-- The score rule exactly as claim C1 states it: 100.0 when
`totalSupplied == 0`, otherwise the rounded survival-rate formula. -/
def claimScoreC1 (totalSupplied totalFailures : Int) : Rat :=
  if totalSupplied = 0 then 100
  else round2 ((((totalSupplied : Rat) - (totalFailures : Rat)) /
      (totalSupplied : Rat)) * 100)

/-- A registry and ledger carrying one batch with a negative `quantity`
(the API performs no sign validation on manifest quantities). -/
def negDB : DB :=
  { service_centers := [],
    vendors := [{ vendor_id := "V-NEG", name := "NegCorp", category := "X",
                  contact := "neg@example" }],
    batches := [{ batch_allocation_id := "B-NEG", company_name := "N",
                  vendor_details := [("vendor_id", "V-NEG")], batch_info := [],
                  parts_manifest := [{ part_sku := "S", part_name := "s",
                                       quantity := -5,
                                       failures_logged := 1 }] }] }

/-- C1 as stated is false on the code: on a stored manifest whose summed
quantity is negative (here `totalSupplied = -5 ≠ 0`), the formula of the claim
prescribes score 120.0 while the endpoint answers 100.0, because the code
guards the formula with `total_parts_supplied > 0`, not `== 0`. -/
theorem claim_C1_counterexample :
    get_vendor_analytics negDB "V-NEG" =
      .ok { vendor_name := "NegCorp", calculated_durability_score := 100,
            total_parts_supplied := -5, total_failures_detected := 1,
            batches_analyzed := 1 } ∧
    claimScoreC1 (-5) 1 = 120 ∧ (100 : Rat) ≠ 120 := by
  refine ⟨?_, ?_, by norm_num⟩
  · simp only [get_vendor_analytics, negDB, vendorBatches, manifestQuantity,
      manifestFailures, round2, List.find?, List.filter, List.lookup]
    norm_num [round_eq]
  · simp only [claimScoreC1, round2]
    norm_num [round_eq]

/-- The Durability Scoring Engine contract of spec §4.4 written from the
words of the spec, with the zero-supply branch amended as the C1
counterexample forces: the score is 100.0 whenever `totalSupplied ≤ 0`
(the code tests `totalSupplied > 0`), otherwise
`((totalSupplied - totalFailures) / totalSupplied) * 100` rounded to two
decimal places, over the batches whose `vendor_details.vendor_id` equals
the requested vendor id. -/
def analyticsSpec (db : DB) (vendor_id : String) :
    Except HTTPException VendorAnalytics :=
  match db.vendors.find? (fun v => v.vendor_id == vendor_id) with
  | none => .error ⟨404, "Vendor not found"⟩
  | some vendor =>
      let batches := vendorBatches db vendor_id
      let totalSupplied : Int :=
        (batches.map (fun b => manifestQuantity b.parts_manifest)).sum
      let totalFailures : Int :=
        (batches.map (fun b => manifestFailures b.parts_manifest)).sum
      let score : Rat :=
        if totalSupplied ≤ 0 then 100
        else round2 ((((totalSupplied : Rat) - (totalFailures : Rat)) /
            (totalSupplied : Rat)) * 100)
      .ok { vendor_name := vendor.name
            calculated_durability_score := score
            total_parts_supplied := totalSupplied
            total_failures_detected := totalFailures
            batches_analyzed := batches.length }

/-- Rounding to two decimals fixes 100. -/
theorem round2_hundred : round2 100 = 100 := by
  norm_num [round2, round_eq]

/-- C1 (amended): `computeVendorAnalytics` returns exactly the amended
amended aggregation — sums of `quantity` and `failures_logged` over the
batches of the vendor, score 100.0 when `totalSupplied ≤ 0` and the rounded
survival-rate formula otherwise; in particular a vendor with zero
associated batches scores 100.0. -/
theorem claim_C1 (db : DB) (vid : String) :
    get_vendor_analytics db vid = analyticsSpec db vid ∧
    (vendorBatches db vid = [] →
      ∀ r, get_vendor_analytics db vid = .ok r →
        r.calculated_durability_score = 100) := by
  constructor
  · rcases hfind : db.vendors.find? (fun v => v.vendor_id == vid) with _ | v
    · rw [get_vendor_analytics, analyticsSpec, hfind]
    · rw [get_vendor_analytics, analyticsSpec, hfind]
      simp only [Except.ok.injEq, VendorAnalytics.mk.injEq, true_and, and_true]
      by_cases hpos :
        ((vendorBatches db vid).map
          (fun b => manifestQuantity b.parts_manifest)).sum > 0
      · rw [if_pos hpos, if_neg (not_le.2 hpos)]
      · rw [if_neg hpos, if_pos (not_lt.1 hpos), round2_hundred]
  · intro hempty r hr
    rcases hfind : db.vendors.find? (fun v => v.vendor_id == vid) with _ | v
    · rw [get_vendor_analytics, hfind] at hr; cases hr
    · rw [get_vendor_analytics, hfind] at hr
      simp only [hempty, Except.ok.injEq] at hr
      rw [← hr]
      simp [round2_hundred]

theorem claim_C1_witness :
    get_vendor_analytics scenarioDB1 "V-DENSO-09" =
      analyticsSpec scenarioDB1 "V-DENSO-09" ∧
    ({ vendor_name := "Denso Corporation",
       calculated_durability_score := 100, total_parts_supplied := 0,
       total_failures_detected := 0,
       batches_analyzed := 0 } : VendorAnalytics).calculated_durability_score
      = 100 :=
  ⟨(claim_C1 scenarioDB1 "V-DENSO-09").1,
   (claim_C1 scenarioDB1 "V-DENSO-09").2 (by simp [vendorBatches, scenarioDB1])
     { vendor_name := "Denso Corporation",
       calculated_durability_score := 100, total_parts_supplied := 0,
       total_failures_detected := 0, batches_analyzed := 0 }
     (by simp only [get_vendor_analytics, scenarioDB1, densoVendor,
           vendorBatches, manifestQuantity, manifestFailures, List.find?,
           List.filter]
         norm_num [round2, round_eq])⟩

end AdminEY
